import Mathlib

/-!
Verification development for the corporate-loan data-profiling repository
(src/corporate_loan_rules.py, src/custom_rules.py, src/risk_scoring.py,
src/remediation.py, src/genai_data_profiling.py).

The code operates on pandas dataframes whose cells hold strings, integers,
booleans (written back by validation rules) or the float NaN that pandas uses
for missing cells.  We embed a cell as `Value`, a dataframe as a list of
columns plus a list of rows (each row an association list from field name to
cell), and each validation rule as a `RuleSpec` interpreted by `applyRule`.
Python exceptions (KeyError on a missing column, AttributeError from calling
a string method on a non-string, TypeError from an unsupported comparison)
are embedded as `Except PyErr`.

Modelling notes on fidelity:
* `str.isdigit`, the regex class of digits, and `str.upper`/`str.lower` are
  modelled over ASCII; exotic Unicode digit/case behaviour is out of scope.
* Python float literal parsing is modelled exactly over decimal/exponent
  strings as rationals (underscored literals are not modelled); `inf` and
  `nan` are distinguished values, as in Python, so comparisons against them
  are false.
* `re.match` with a pattern anchored as start-to-dollar is modelled including
  the dollar-matches-before-a-trailing-newline rule.
-/

set_option maxRecDepth 8000

/-- A Python exception kind observable from the profiling code. -/
inductive PyErr where
  | keyError
  | typeError
  | attributeError
  | nameError
deriving DecidableEq, Repr

/-- A dataframe cell: a string, a Python int, a Python bool (verdicts written
back into columns), or the float NaN standing for a missing cell. -/
inductive Value where
  | vs (s : String)
  | vi (n : Int)
  | vb (b : Bool)
  | vna
deriving DecidableEq, Repr

/-- `str(x)` / `.astype(str)` on a cell. -/
def pyStr : Value → String
  | .vs s => s
  | .vi n => toString n
  | .vb true => "True"
  | .vb false => "False"
  | .vna => "nan"

/-- The whitespace characters stripped by Python `str.strip()` (ASCII part). -/
def isPyWs (c : Char) : Bool :=
  c = ' ' || c = '\t' || c = '\n' || c = '\r' || c = Char.ofNat 11 || c = Char.ofNat 12

/-- Python `str.strip()`. -/
def pyStrip (s : String) : String :=
  String.mk (((s.toList.dropWhile isPyWs).reverse.dropWhile isPyWs).reverse)

/-- Python `str.upper()` (ASCII). -/
def pyUpper (s : String) : String := String.mk (s.toList.map Char.toUpper)

/-- Python `str.lower()` (ASCII). -/
def pyLower (s : String) : String := String.mk (s.toList.map Char.toLower)

/-- Python `str.isdigit()` (ASCII digits). -/
def pyIsdigit (s : String) : Bool := !s.isEmpty && s.toList.all Char.isDigit

/-- Python `x == lit` for a cell against a string literal: only equal strings
compare equal; ints, bools and NaN never equal a string. -/
def pyEqStr (v : Value) (t : String) : Bool :=
  match v with
  | .vs s => s == t
  | _ => false

/-- Python `x != lit` against a string literal. -/
def pyNeStr (v : Value) (t : String) : Bool := !(pyEqStr v t)

/-- Python truthiness of a cell (`not x` is its negation).  NaN is truthy. -/
def truthy : Value → Bool
  | .vs s => !s.isEmpty
  | .vi n => n != 0
  | .vb b => b
  | .vna => true

/-- pandas `Series.isin` against a list of Python ints.  A Python bool equals
the int 0 or 1; strings and NaN match nothing. -/
def isinInt (ns : List Int) : Value → Bool
  | .vi n => ns.contains n
  | .vb b => ns.contains (if b then 1 else 0)
  | _ => false

/-- pandas `Series.astype(str).isin` against a list of string codes. -/
def strIsin (ss : List String) (v : Value) : Bool := ss.contains (pyStr v)

/-- Python `x > n` for a cell against an int literal: ints and bools compare
numerically, NaN comparisons are false, strings raise TypeError. -/
def pyGtInt (v : Value) (n : Int) : Except PyErr Bool :=
  match v with
  | .vi m => .ok (decide (n < m))
  | .vb b => .ok (decide (n < (if b then (1 : Int) else 0)))
  | .vna => .ok false
  | .vs _ => .error .typeError

/-- Is the cell a string?  (Used to state hypotheses that exclude the
TypeError branch of `pyGtInt`.) -/
def isStrV : Value → Bool
  | .vs _ => true
  | _ => false

section PyFloat

/-- Result of a successful Python `float(..)` conversion: a finite value
(exact rational), NaN, or a signed infinity. -/
inductive PyFloat where
  | rat (q : ℚ)
  | nan
  | inf
  | ninf
deriving DecidableEq

/-- Decimal digits to a natural number. -/
def digitsToNat (l : List Char) : Nat :=
  l.foldl (fun a c => a * 10 + (c.toNat - 48)) 0

/-- Parse the exponent tail of a float literal (after the `e`): optional sign
then one or more digits, consuming the whole remainder. -/
def parseExpTail (cs : List Char) : Option Int :=
  let (neg, body) :=
    match cs with
    | '+' :: t => (false, t)
    | '-' :: t => (true, t)
    | t => (false, t)
  let (ds, rest) := body.span Char.isDigit
  if ds.isEmpty || !rest.isEmpty then none
  else some (if neg then -(digitsToNat ds : Int) else (digitsToNat ds : Int))

/-- Parse the mantissa of a float literal: digits, optional point, digits,
with at least one digit overall.  Returns (value, number of fraction digits)
scaled so that value = intpart * 10^frac + fracpart. -/
def parseMantissa (cs : List Char) : Option (Nat × Nat) :=
  let (ip, r1) := cs.span Char.isDigit
  match r1 with
  | [] => if ip.isEmpty then none else some (digitsToNat ip, 0)
  | '.' :: r2 =>
    let (fp, r3) := r2.span Char.isDigit
    if !r3.isEmpty || (ip.isEmpty && fp.isEmpty) then none
    else some (digitsToNat ip * 10 ^ fp.length + digitsToNat fp, fp.length)
  | _ => none

/-- Python `float(s)` on a string: strips whitespace, accepts an optional
sign, `inf`/`infinity`/`nan` in any case, or a decimal literal with optional
exponent.  Returns `none` where Python raises ValueError. -/
def pyFloatParse (s : String) : Option PyFloat :=
  let cs := (pyStrip s).toList
  let (neg, body) :=
    match cs with
    | '+' :: t => (false, t)
    | '-' :: t => (true, t)
    | t => (false, t)
  let low := String.mk (body.map Char.toLower)
  if low = "inf" || low = "infinity" then some (if neg then .ninf else .inf)
  else if low = "nan" then some .nan
  else
    let (mant, rest) := body.span (fun c => c ≠ 'e' && c ≠ 'E')
    match parseMantissa mant with
    | none => none
    | some (m, fl) =>
      let expo : Option Int :=
        match rest with
        | [] => some 0
        | _ :: r => parseExpTail r
      match expo with
      | none => none
      | some e =>
        let q : ℚ := (m : ℚ) / (10 : ℚ) ^ (fl : ℕ) * (10 : ℚ) ^ (e : ℤ)
        some (.rat (if neg then -q else q))

/-- Python `float(x)` on a cell: ints and bools convert exactly, NaN stays
NaN, strings are parsed. -/
def pyFloatOf : Value → Option PyFloat
  | .vi n => some (.rat (n : ℚ))
  | .vb b => some (.rat (if b then 1 else 0))
  | .vna => some .nan
  | .vs s => pyFloatParse s

/-- `0 <= val <= 1` on a float conversion result (false for NaN and both
infinities, as in Python). -/
def pyFloatInRange01 : PyFloat → Bool
  | .rat q => decide (0 ≤ q ∧ q ≤ 1)
  | _ => false

end PyFloat

/-- Split a character list at every dash (the semantics of splitting a
string on a single-character separator). -/
def splitDash : List Char → List (List Char)
  | [] => [[]]
  | c :: t =>
    let r := splitDash t
    if c = '-' then [] :: r
    else
      match r with
      | h :: t2 => (c :: h) :: t2
      | [] => [[c]]

section PyDate

/-- A calendar date produced by `datetime.strptime(s, a year-month-day
format)`. -/
structure PyDate where
  y : Nat
  m : Nat
  d : Nat
deriving DecidableEq, Repr

def isLeap (y : Nat) : Bool := y % 4 == 0 && (y % 100 != 0 || y % 400 == 0)

def daysInMonth (y m : Nat) : Nat :=
  if m = 2 then (if isLeap y then 29 else 28)
  else if m = 4 || m = 6 || m = 9 || m = 11 then 30
  else 31

/-- `datetime.strptime(s, a 4-digit-year dash month dash day format)`
modelled as a total parser: the year is exactly four digits, the month and
day are one or two digits in range (no "00"), the day must exist in that
month, and the year must be at least 1 (datetime.MINYEAR). -/
def ymdParse (s : String) : Option PyDate :=
  match splitDash s.toList with
  | [ys, ms, ds] =>
    if ys.length == 4 && ys.all Char.isDigit
        && !ms.isEmpty && ms.length ≤ 2 && ms.all Char.isDigit
        && !ds.isEmpty && ds.length ≤ 2 && ds.all Char.isDigit then
      let y := digitsToNat ys
      let m := digitsToNat ms
      let d := digitsToNat ds
      if 1 ≤ y && 1 ≤ m && m ≤ 12 && 1 ≤ d && d ≤ daysInMonth y m then
        some ⟨y, m, d⟩
      else none
    else none
  | _ => none

/-- `d1 <= d2` on dates (a parsed date has time midnight, so comparison with
`datetime.today()` reduces to date comparison). -/
def dateLe (a b : PyDate) : Bool :=
  a.y < b.y || (a.y == b.y && (a.m < b.m || (a.m == b.m && a.d ≤ b.d)))

end PyDate

section Regex

/-- `re.match` with a pattern anchored `^...$`: the core must match the whole
string, or the whole string minus a single trailing newline (the dollar also
matches just before a trailing newline). -/
def pyMatchDollar (core : String → Bool) (s : String) : Bool :=
  core s ||
    (match s.toList.reverse with
     | '\n' :: rest => core (String.mk rest.reverse)
     | _ => false)

def isUpperAZ (c : Char) : Bool := 'A' ≤ c && c ≤ 'Z'
def isLowerAZ (c : Char) : Bool := 'a' ≤ c && c ≤ 'z'

/-- A character excluded by the identifier character class: carriage return,
line feed, comma, a control character, or delete. -/
def idExcluded (c : Char) : Bool :=
  c = ',' || c.toNat ≤ 31 || c.toNat == 127

/-- One or more identifier characters (no CR, LF, comma, controls, delete). -/
def idCore (s : String) : Bool := !s.isEmpty && s.toList.all (fun c => !idExcluded c)

/-- Zero or more identifier characters. -/
def idStarCore (s : String) : Bool := s.toList.all (fun c => !idExcluded c)

/-- One or more characters excluding CR, LF, controls and delete (the comma
is allowed: Original_Credit_Facility_ID holds comma-separated ids). -/
def origIdCore (s : String) : Bool :=
  !s.isEmpty && s.toList.all (fun c => !(c.toNat ≤ 31 || c.toNat == 127))

/-- One or more characters excluding comma, CR, LF and form feed (the class
used for SNC_Internal_Credit_ID). -/
def sncCore (s : String) : Bool :=
  !s.isEmpty && s.toList.all (fun c => !(c = ',' || c.toNat == 13 || c.toNat == 10 || c.toNat == 12))

/-- Exactly two upper-case letters. -/
def twoUpperCore (s : String) : Bool := s.length == 2 && s.toList.all isUpperAZ

/-- Exactly three upper-case letters. -/
def threeUpperCore (s : String) : Bool := s.length == 3 && s.toList.all isUpperAZ

/-- Exactly six alphanumeric characters. -/
def alnum6Core (s : String) : Bool :=
  s.length == 6 && s.toList.all (fun c => isUpperAZ c || isLowerAZ c || c.isDigit)

/-- Exactly twenty upper-case letters or digits (LEI body). -/
def lei20Core (s : String) : Bool :=
  s.length == 20 && s.toList.all (fun c => isUpperAZ c || c.isDigit)

/-- All digits with the length between `lo` and `hi`. -/
def digitsLenRange (lo hi : Nat) (s : String) : Bool :=
  !s.isEmpty && s.toList.all Char.isDigit && lo ≤ s.length && s.length ≤ hi

/-- Nine digits, or two digits dash seven digits, or the literal NA (the TIN
format). -/
def tinCore (s : String) : Bool :=
  let l := s.toList
  (l.length == 9 && l.all Char.isDigit)
  || (match l.splitAt 2 with
      | (a, '-' :: b) => a.all Char.isDigit && b.length == 7 && b.all Char.isDigit
      | _ => false)
  || s == "NA"

/-- Three digits dash two digits dash four digits, or nine digits, or NA
(the guarantor TIN format, matched after upper-casing). -/
def guarantorTinCore (s : String) : Bool :=
  (match splitDash s.toList with
   | [a, b, c] =>
     a.length == 3 && a.all Char.isDigit && b.length == 2 && b.all Char.isDigit
       && c.length == 4 && c.all Char.isDigit
   | [a] => a.length == 9 && a.all Char.isDigit
   | _ => false)
  || s == "NA"

/-- Upper letter, dot, upper letter, dot, digit (disposition schedule shift). -/
def dispShiftCore (s : String) : Bool :=
  match s.toList with
  | [a, '.', b, '.', c] => isUpperAZ a && isUpperAZ b && c.isDigit
  | _ => false

/-- One or more digits, optionally a dot and one to four digits (target
hold). -/
def targetHoldCore (s : String) : Bool :=
  let (d1, r) := s.toList.span Char.isDigit
  !d1.isEmpty &&
    (r.isEmpty ||
      (match r with
       | '.' :: fr => !fr.isEmpty && fr.length ≤ 4 && fr.all Char.isDigit
       | _ => false))

/-- An optional minus sign then one or more digits (signed integer string). -/
def intSignedCore (s : String) : Bool :=
  match s.toList with
  | '-' :: t => !t.isEmpty && t.all Char.isDigit
  | l => !l.isEmpty && l.all Char.isDigit

/-- Two digits dash two digits dash four digits (the day-month-year pattern
actually used by the renewal-date rule). -/
def ddmmyyyyCore (s : String) : Bool :=
  match s.toList with
  | [a, b, '-', c, d, '-', e, f, g, h] =>
    a.isDigit && b.isDigit && c.isDigit && d.isDigit
      && e.isDigit && f.isDigit && g.isDigit && h.isDigit
  | _ => false

end Regex

section Dataframe

/-- A dataframe row: field name to cell.  pandas frames are rectangular, so a
key present in `cols` but absent from the association list reads as NaN. -/
def Row : Type := List (String × Value)

instance : DecidableEq Row := by unfold Row; infer_instance

/-- A dataframe: its column names and its rows in order. -/
structure Dataset where
  cols : List String
  rows : List Row
deriving DecidableEq

/-- Read field `k` of a row (NaN when the cell is not stored). -/
def getF : Row → String → Value
  | [], _ => .vna
  | (k', v) :: t, k => if k' = k then v else getF t k

/-- Column assignment restricted to one row: replace the first binding of `k`
in place, or append it. -/
def setF : Row → String → Value → Row
  | [], k, v => [(k, v)]
  | (k', v') :: t, k, v =>
    if k' = k then (k, v) :: t else (k', v') :: setF t k v

/-- Add a column name if it is new (pandas column assignment appends new
columns at the end and keeps existing ones in place). -/
def addCol (cols : List String) (k : String) : List String :=
  if cols.contains k then cols else cols ++ [k]

/-- `x[k]` on a row passed to `DataFrame.apply(..., axis=1)`: KeyError when
the column does not exist, otherwise the stored cell (NaN if missing). -/
def rowGet (cols : List String) (r : Row) (k : String) : Except PyErr Value :=
  if cols.contains k then .ok (getF r k) else .error .keyError

/-- `Series.get(k, default)` used by the risk scorer and remediation advisor:
the default when the label is absent, never an error. -/
def rowGetD (cols : List String) (r : Row) (k : String) (dflt : Value) : Value :=
  if cols.contains k then getF r k else dflt

/-- Effectful map over a list in the `Except` monad; the first error aborts
the whole traversal, as an exception inside `DataFrame.apply` does. -/
def mapExcept (f : α → Except PyErr β) : List α → Except PyErr (List β)
  | [] => .ok []
  | a :: t =>
    match f a with
    | .error e => .error e
    | .ok b =>
      match mapExcept f t with
      | .error e => .error e
      | .ok bs => .ok (b :: bs)

/-- A validation rule.  `col src out p` embeds the dominant source pattern
`df[out] = df[src].astype-or-apply(predicate)`: a whole-column read (KeyError
when `src` is not a column, even on a zero-row frame) followed by a
row-wise boolean verdict.  `rowr out p` embeds the
`df[out] = df.apply(lambda x: ..., axis=1)` pattern whose predicate reads
sibling fields through `x[...]` and may itself raise. -/
inductive RuleSpec where
  | col (src out : String) (p : Value → Bool)
  | rowr (out : String) (p : (String → Except PyErr Value) → Except PyErr Bool)

/-- The verdict column a rule writes. -/
def outField : RuleSpec → String
  | .col _ out _ => out
  | .rowr out _ => out

/-- Apply one rule to a dataframe. -/
def applyRule (R : RuleSpec) (d : Dataset) : Except PyErr Dataset :=
  match R with
  | .col src out p =>
    if d.cols.contains src then
      .ok ⟨addCol d.cols out, d.rows.map (fun r => setF r out (.vb (p (getF r src))))⟩
    else .error .keyError
  | .rowr out p =>
    match mapExcept (fun r => (p (rowGet d.cols r)).map (fun b => setF r out (.vb b))) d.rows with
    | .error e => .error e
    | .ok rs => .ok ⟨addCol d.cols out, rs⟩

/-- Apply a list of rules in order, stopping at the first raised exception. -/
def applyRules : List RuleSpec → Dataset → Except PyErr Dataset
  | [], d => .ok d
  | R :: t, d =>
    match applyRule R d with
    | .error e => .error e
    | .ok d1 => applyRules t d1

/-- The predicate of a column rule evaluated on one cell (for stating
per-rule verdict characterisations). -/
def colVerdict (R : RuleSpec) (v : Value) : Option Bool :=
  match R with
  | .col _ _ p => some (p v)
  | .rowr _ _ => none

end Dataframe

section CorporateLoanRules

/-- `str(x).isdigit()` applied per cell, the rule body shared by the
financial-statement fields. -/
def vfIsdigit (v : Value) : Bool := pyIsdigit (pyStr v)

/-- `isinstance(x, (int, float)) and x >= 0`: a Python bool is an int (True
is 1 and False is 0, both nonnegative); NaN is a float but compares false. -/
def numNonneg (v : Value) : Bool :=
  match v with
  | .vi n => decide (0 ≤ n)
  | .vb _ => true
  | _ => false

def validate_customer_id : RuleSpec :=
  .col "Customer_ID" "Customer_ID" (fun v => pyMatchDollar idCore (pyStr v))

def validate_internal_id : RuleSpec :=
  .col "Internal_ID" "Internal_ID" (fun v => pyMatchDollar idCore (pyStr v))

def validate_original_internal_id : RuleSpec :=
  .col "Original_Internal_ID" "Original_Internal_ID" (fun v => pyMatchDollar idCore (pyStr v))

def validate_obligor_name : RuleSpec :=
  .col "Obligor_Name" "Obligor_Name" (fun v => pyMatchDollar idCore (pyStr v))

def validate_city : RuleSpec :=
  .col "City" "City" (fun v => !(pyStrip (pyStr v)).isEmpty)

def validate_country : RuleSpec :=
  .col "Country" "Country" (fun v => pyMatchDollar twoUpperCore (pyStr v))

def validate_industry_code : RuleSpec :=
  .col "Industry_Code" "Industry_Code" (fun v => pyMatchDollar (digitsLenRange 4 6) (pyStr v))

def validate_industry_code_type : RuleSpec :=
  .col "Industry_Code_Type" "Industry_Code_Type" (strIsin ["1", "2", "3"])

def validate_internal_risk_rating : RuleSpec :=
  .col "Internal_Risk_Rating" "Internal_Risk_Rating" (fun v => !(pyStrip (pyStr v)).isEmpty)

def validate_tin : RuleSpec :=
  .col "TIN" "TIN" (fun v => pyMatchDollar tinCore (pyStr v))

def validate_stock_exchange : RuleSpec :=
  .col "Stock_Exchange" "Stock_Exchange" (fun v => !(pyStrip (pyStr v)).isEmpty)

def validate_ticker_symbol : RuleSpec :=
  .col "Ticker_Symbol" "Ticker_Symbol" (fun v => !(pyStrip (pyStr v)).isEmpty)

def validate_cusip : RuleSpec :=
  .col "CUSIP" "CUSIP" (fun v => pyMatchDollar (fun s => alnum6Core s || s == "NA") (pyStr v))

def validate_internal_credit_facility_id : RuleSpec :=
  .col "Internal_Credit_Facility_ID" "Internal_Credit_Facility_ID"
    (fun v => pyMatchDollar idCore (pyStr v))

def validate_original_credit_facility_id : RuleSpec :=
  .col "Original_Credit_Facility_ID" "Original_Credit_Facility_ID"
    (fun v => pyMatchDollar origIdCore (pyStr v))

/-- Origination date: parse as year-month-day and require not after today
(today is the process date, passed explicitly into the embedding). -/
def validate_origination_date (today : PyDate) : RuleSpec :=
  .col "Origination_Date" "Origination_Date"
    (fun v =>
      match ymdParse (pyStr v) with
      | some dt => dateLe dt today
      | none => false)

def validate_maturity_date : RuleSpec :=
  .col "Maturity_Date" "Maturity_Date"
    (fun v => (ymdParse (pyStr v)).isSome || pyStr v == "9999-01-01")

def cftAllowed : List String := (List.range 20).map (fun i => toString i)

def validate_credit_facility_type : RuleSpec :=
  .col "Credit_Facility_Type" "Credit_Facility_Type" (strIsin cftAllowed)

/-- Field 21: conditional requiredness of the free-text description.  The
lambda reads the sibling Credit_Facility_Type cell and, only when it equals
the string zero, calls `.strip()` on the description (AttributeError when
the description cell is not a string). -/
def condDescOk (codeCol descCol : String) (g : String → Except PyErr Value) :
    Except PyErr Bool :=
  match g codeCol with
  | .error e => .error e
  | .ok c =>
    if pyNeStr c "0" then .ok true
    else
      match g descCol with
      | .error e => .error e
      | .ok (.vs s) => .ok (!(pyStrip s).isEmpty)
      | .ok _ => .error .attributeError

def validate_other_credit_facility_type_desc : RuleSpec :=
  .rowr "Other_Credit_Facility_Desc"
    (condDescOk "Credit_Facility_Type" "Other_Credit_Facility_Type_Description")

def purposeAllowed : List String := (List.range 31).map (fun i => toString i) ++ ["33"]

def validate_credit_facility_purpose : RuleSpec :=
  .col "Credit_Facility_Purpose" "Credit_Facility_Purpose" (strIsin purposeAllowed)

def validate_other_credit_facility_purpose_desc : RuleSpec :=
  .rowr "Other_Credit_Facility_Purpose_Desc"
    (condDescOk "Credit_Facility_Purpose" "Other_Credit_Facility_Purpose_Description")

def validate_committed_exposure : RuleSpec :=
  .col "Committed_Exposure" "Committed_Exposure" numNonneg

def validate_utilized_exposure : RuleSpec :=
  .col "Utilized_Exposure" "Utilized_Exposure" numNonneg

def validate_line_reported_on_fry9c : RuleSpec :=
  .col "Line_Reported_on_FR_Y9C" "Line_Reported_on_FR_Y9C"
    (strIsin ((List.range 11).map (fun i => toString (i + 1))))

def validate_line_of_business : RuleSpec :=
  .col "Line_of_Business" "Line_of_Business" (fun v => !(pyStrip (pyStr v)).isEmpty)

def validate_cumulative_chargeoffs : RuleSpec :=
  .col "Cumulative_Chargeoffs" "Cumulative_Chargeoffs"
    (fun v => pyEqStr v "NA" || numNonneg v)

/-- `isinstance(x, int) and x >= 0` (a Python bool is an int). -/
def validate_days_past_due : RuleSpec :=
  .col "Days_Past_Due" "Days_Past_Due"
    (fun v =>
      match v with
      | .vi n => decide (0 ≤ n)
      | .vb _ => true
      | _ => false)

def validate_non_accrual_date : RuleSpec :=
  .col "Non_Accrual_Date" "Non_Accrual_Date"
    (fun v => (ymdParse (pyStr v)).isSome || pyStr v == "9999-12-31")

def validate_participation_flag : RuleSpec :=
  .col "Participation_Flag" "Participation_Flag" (strIsin ["1", "2", "3", "4", "5"])

def validate_lien_position : RuleSpec :=
  .col "Lien_Position" "Lien_Position" (strIsin ["1", "2", "3", "4"])

def validate_security_type : RuleSpec :=
  .col "Security_Type" "Security_Type" (strIsin ["0", "1", "2", "3", "4", "5", "6"])

def validate_interest_rate_variability : RuleSpec :=
  .col "Interest_Rate_Variability" "Interest_Rate_Variability" (strIsin ["1", "2", "3", "4"])

def validate_interest_rate : RuleSpec :=
  .col "Interest_Rate" "Interest_Rate"
    (fun v =>
      if pyUpper (pyStrip (pyStr v)) == "NA" then true
      else
        match pyFloatOf v with
        | some f => pyFloatInRange01 f
        | none => false)

def validate_interest_rate_index : RuleSpec :=
  .col "Interest_Rate_Index" "Interest_Rate_Index"
    (strIsin ["1", "2", "3", "4", "5", "6", "7"])

def validate_interest_rate_spread : RuleSpec :=
  .col "Interest_Rate_Spread" "Interest_Rate_Spread"
    (fun v => pyUpper (pyStrip (pyStr v)) == "NA" || (pyFloatOf v).isSome)

/-- Ceiling and floor first rebind the value to its stripped upper-cased
string form and then float that string. -/
def ceilingFloorOk (v : Value) : Bool :=
  let u := pyUpper (pyStrip (pyStr v))
  if u == "NA" || u == "NONE" then true else (pyFloatParse u).isSome

def validate_interest_rate_ceiling : RuleSpec :=
  .col "Interest_Rate_Ceiling" "Interest_Rate_Ceiling" ceilingFloorOk

def validate_interest_rate_floor : RuleSpec :=
  .col "Interest_Rate_Floor" "Interest_Rate_Floor" ceilingFloorOk

/-- Tax status is defined twice in the source with identical bodies; the
second definition shadows the first, and the registry registers it once. -/
def validate_tax_status : RuleSpec :=
  .col "Tax_Status" "Tax_Status" (strIsin ["1", "2"])

def validate_guarantor_internal_id : RuleSpec :=
  .col "Guarantor_Internal_ID" "Guarantor_Internal_ID"
    (fun v =>
      if pyUpper (pyStrip (pyStr v)) == "NA" then true
      else pyMatchDollar idCore (pyStr v))

def validate_guarantor_name : RuleSpec :=
  .col "Guarantor_Name" "Guarantor_Name"
    (fun v =>
      if pyUpper (pyStrip (pyStr v)) == "NA" then true
      else pyMatchDollar idCore (pyStr v))

def validate_guarantor_tin : RuleSpec :=
  .col "Guarantor_TIN" "Guarantor_TIN"
    (fun v => pyMatchDollar guarantorTinCore (pyUpper (pyStr v)))

def validate_guarantor_internal_risk_rating : RuleSpec :=
  .col "Guarantor_Internal_Risk_Rating" "Guarantor_Internal_Risk_Rating"
    (fun v =>
      if pyUpper (pyStrip (pyStr v)) == "NA" then true
      else !(pyStrip (pyStr v)).isEmpty)

def validate_entity_internal_id : RuleSpec :=
  .col "Entity_Internal_ID" "Entity_Internal_ID" (fun v => pyMatchDollar idStarCore (pyStr v))

def validate_entity_name : RuleSpec :=
  .col "Entity_Name" "Entity_Name" (fun v => pyMatchDollar idStarCore (pyStr v))

def validate_entity_internal_risk_rating : RuleSpec :=
  .col "Entity_Internal_Risk_Rating" "Entity_Internal_Risk_Rating"
    (fun v => !(pyStrip (pyStr v)).isEmpty)

/-- `pd.to_datetime(..., errors='coerce').notna()`.  The general pandas
parser is modelled on its ISO year-month-day core for strings; ints and
bools parse as epoch offsets, NaN coerces to NaT. -/
def pdToDatetimeOk (v : Value) : Bool :=
  match v with
  | .vs s => (ymdParse s).isSome
  | .vi _ => true
  | .vb _ => true
  | .vna => false

def validate_date_financials : RuleSpec :=
  .col "Date_Financials" "Date_Financials" pdToDatetimeOk

def validate_date_last_audit : RuleSpec :=
  .col "Date_Last_Audit" "Date_Last_Audit" pdToDatetimeOk

def validate_net_sales_current : RuleSpec :=
  .col "Net_Sales_Current" "Net_Sales_Current" vfIsdigit

def validate_net_sales_prior_year : RuleSpec :=
  .col "Net_Sales_Prior_Year" "Net_Sales_Prior_Year" vfIsdigit

def validate_operating_income : RuleSpec :=
  .col "Operating_Income" "Operating_Income" vfIsdigit

def validate_depreciation_amortization : RuleSpec :=
  .col "Depreciation_Amortization" "Depreciation_Amortization" vfIsdigit

def validate_interest_expense : RuleSpec :=
  .col "Interest_Expense" "Interest_Expense" vfIsdigit

def validate_net_income_current : RuleSpec :=
  .col "Net_Income_Current" "Net_Income_Current" vfIsdigit

def validate_net_income_prior_year : RuleSpec :=
  .col "Net_Income_Prior_Year" "Net_Income_Prior_Year" vfIsdigit

def validate_cash_marketable_securities : RuleSpec :=
  .col "Cash_Marketable_Securities" "Cash_Marketable_Securities" vfIsdigit

/-- Field 62 renames: it reads Accounts_Receivable_Current and writes the
verdict to AR_Current. -/
def validate_accounts_receivable_current : RuleSpec :=
  .col "Accounts_Receivable_Current" "AR_Current" vfIsdigit

def validate_accounts_receivable_prior_year : RuleSpec :=
  .col "Accounts_Receivable_Prior_Year" "AR_Prior_Year" vfIsdigit

def validate_inventory_current : RuleSpec :=
  .col "Inventory_Current" "Inventory_Current" vfIsdigit

def validate_inventory_prior_year : RuleSpec :=
  .col "Inventory_Prior_Year" "Inventory_Prior_Year" vfIsdigit

def validate_current_assets_current : RuleSpec :=
  .col "Current_Assets_Current" "Current_Assets_Current" vfIsdigit

def validate_current_assets_prior_year : RuleSpec :=
  .col "Current_Assets_Prior_Year" "Current_Assets_Prior_Year" vfIsdigit

def validate_tangible_assets : RuleSpec :=
  .col "Tangible_Assets" "Tangible_Assets" vfIsdigit

def validate_fixed_assets : RuleSpec :=
  .col "Fixed_Assets" "Fixed_Assets" vfIsdigit

def validate_total_assets_current : RuleSpec :=
  .col "Total_Assets_Current" "Total_Assets_Current" vfIsdigit

def validate_total_assets_prior_year : RuleSpec :=
  .col "Total_Assets_Prior_Year" "Total_Assets_Prior_Year" vfIsdigit

def validate_accounts_payable_current : RuleSpec :=
  .col "Accounts_Payable_Current" "Accounts_Payable_Current" vfIsdigit

def validate_accounts_payable_prior_year : RuleSpec :=
  .col "Accounts_Payable_Prior_Year" "Accounts_Payable_Prior_Year" vfIsdigit

def validate_short_term_debt : RuleSpec :=
  .col "Short_Term_Debt" "Short_Term_Debt" vfIsdigit

def validate_current_maturities_long_term_debt : RuleSpec :=
  .col "Current_Maturities_Long_Term_Debt" "Current_Maturities_Long_Term_Debt" vfIsdigit

def validate_current_liabilities_current : RuleSpec :=
  .col "Current_Liabilities_Current" "Current_Liabilities_Current" vfIsdigit

def validate_current_liabilities_prior_year : RuleSpec :=
  .col "Current_Liabilities_Prior_Year" "Current_Liabilities_Prior_Year" vfIsdigit

def validate_long_term_debt : RuleSpec :=
  .col "Long_Term_Debt" "Long_Term_Debt" vfIsdigit

def validate_minority_interest : RuleSpec :=
  .col "Minority_Interest" "Minority_Interest"
    (fun v => vfIsdigit v || pyUpper (pyStrip (pyStr v)) == "NA")

def validate_total_liabilities : RuleSpec :=
  .col "Total_Liabilities" "Total_Liabilities" vfIsdigit

def validate_retained_earnings : RuleSpec :=
  .col "Retained_Earnings" "Retained_Earnings" vfIsdigit

def validate_capital_expenditures : RuleSpec :=
  .col "Capital_Expenditures" "Capital_Expenditures" vfIsdigit

/-- Field 83 uses a raw `isin([1, 2])` without stringifying. -/
def validate_special_purpose_entity_flag : RuleSpec :=
  .col "Special_Purpose_Entity_Flag" "Special_Purpose_Entity_Flag" (isinInt [1, 2])

def validate_locom_flag : RuleSpec :=
  .col "LOCOM" "LOCOM" (isinInt [1, 2, 3])

def validate_snc_internal_credit_id : RuleSpec :=
  .col "SNC_Internal_Credit_ID" "SNC_Internal_Credit_ID"
    (fun v => pyEqStr v "NA" || pyMatchDollar sncCore (pyStr v))

/-- Field 88 renames: reads Probability_of_Default, writes PD. -/
def validate_probability_of_default : RuleSpec :=
  .col "Probability_of_Default" "PD"
    (fun v =>
      if pyUpper (pyStr v) == "NA" then true
      else
        match pyFloatOf v with
        | some f => pyFloatInRange01 f
        | none => false)

def validate_loss_given_default : RuleSpec :=
  .col "LGD" "LGD"
    (fun v =>
      if pyUpper (pyStr v) == "NA" then true
      else
        match pyFloatOf v with
        | some f => pyFloatInRange01 f
        | none => false)

def validate_exposure_at_default : RuleSpec :=
  .col "EAD" "EAD" (fun v => vfIsdigit v || pyUpper (pyStrip (pyStr v)) == "NA")

/-- Field 91: the sentinel is checked on the stripped string, and the only
other accepted shape is the two-digit two-digit four-digit dashed pattern. -/
def validate_renewal_date : RuleSpec :=
  .col "Renewal_Date" "Renewal_Date"
    (fun v =>
      pyStrip (pyStr v) == "9999-12-31" || pyMatchDollar ddmmyyyyCore (pyStr v))

def validate_credit_facility_currency : RuleSpec :=
  .col "Credit_Facility_Currency" "Credit_Facility_Currency"
    (fun v => pyMatchDollar threeUpperCore (pyStrip (pyStr v)))

def validate_collateral_market_value : RuleSpec :=
  .col "Collateral_Market_Value" "Collateral_Market_Value"
    (fun v => vfIsdigit v || pyUpper (pyStrip (pyStr v)) == "NA")

def validate_prepayment_penalty_flag : RuleSpec :=
  .col "Prepayment_Penalty_Flag" "Prepayment_Penalty_Flag" (isinInt [1, 2, 3])

def validate_entity_industry_code : RuleSpec :=
  .col "Entity_Industry_Code" "Entity_Industry_Code"
    (fun v => pyIsdigit (pyStr v) && 4 ≤ (pyStr v).length && (pyStr v).length ≤ 6)

def validate_participation_interest : RuleSpec :=
  .col "Participation_Interest" "Participation_Interest"
    (fun v =>
      if pyUpper (pyStrip (pyStr v)) == "NA" then true
      else
        match pyFloatOf v with
        | some f => pyFloatInRange01 f
        | none => false)

def validate_leveraged_loan_flag : RuleSpec :=
  .col "Leveraged_Loan_Flag" "Leveraged_Loan_Flag" (isinInt [1, 2])

def validate_disposition_flag : RuleSpec :=
  .col "Disposition_Flag" "Disposition_Flag"
    (isinInt ((List.range 9).map (fun i => (i : Int))))

def validate_disposition_schedule_shift : RuleSpec :=
  .col "Disposition_Schedule_Shift" "Disposition_Schedule_Shift"
    (fun v =>
      pyMatchDollar dispShiftCore (pyStrip (pyStr v))
        || pyUpper (pyStrip (pyStr v)) == "NA")

def validate_syndicated_loan_flag : RuleSpec :=
  .col "Syndicated_Loan_Flag" "Syndicated_Loan_Flag" (isinInt [0, 1, 2, 3, 4])

def validate_target_hold : RuleSpec :=
  .col "Target_Hold" "Target_Hold"
    (fun v =>
      pyUpper (pyStrip (pyStr v)) == "NA" || pyMatchDollar targetHoldCore (pyStr v))

def validate_asc326_20 : RuleSpec :=
  .col "ASC326_20" "ASC326_20" vfIsdigit

def validate_pcd_noncredit_discount : RuleSpec :=
  .col "PCD_Noncredit_Discount" "PCD_Noncredit_Discount"
    (fun v => pyEqStr v "" || vfIsdigit v)

/-- Field 104: the try branch calls strptime on the raw cell, so a non-string
cell raises TypeError, which the bare except catches before comparing against
the sentinel. -/
def validate_current_maturity_date : RuleSpec :=
  .col "Current_Maturity_Date" "Current_Maturity_Date"
    (fun v =>
      match v with
      | .vs s => (ymdParse s).isSome || s == "9999-01-01"
      | _ => false)

def naOrSignedInt (v : Value) : Bool :=
  pyUpper (pyStr v) == "NA" || pyMatchDollar intSignedCore (pyStr v)

def validate_committed_exposure_global_par : RuleSpec :=
  .col "Committed_Exposure_Global_Par" "Committed_Exposure_Global_Par" naOrSignedInt

def validate_utilized_exposure_global_par : RuleSpec :=
  .col "Utilized_Exposure_Global_Par" "Utilized_Exposure_Global_Par" naOrSignedInt

def validate_committed_exposure_global_fair : RuleSpec :=
  .col "Committed_Exposure_Global_Fair" "Committed_Exposure_Global_Fair" naOrSignedInt

def validate_utilized_exposure_global_fair : RuleSpec :=
  .col "Utilized_Exposure_Global_Fair" "Utilized_Exposure_Global_Fair" naOrSignedInt

def validate_obligor_lei : RuleSpec :=
  .col "Obligor_LEI" "Obligor_LEI"
    (fun v => pyMatchDollar lei20Core (pyStr v) || pyUpper (pyStr v) == "NA")

def validate_psr_lei : RuleSpec :=
  .col "PSR_LEI" "PSR_LEI"
    (fun v => pyMatchDollar lei20Core (pyStr v) || pyUpper (pyStr v) == "NA")

/-- The rule registry in the exact order of the source's extend call. -/
def CORPORATE_LOAN_RULES (today : PyDate) : List RuleSpec := [
  validate_target_hold,
  validate_asc326_20,
  validate_pcd_noncredit_discount,
  validate_current_maturity_date,
  validate_committed_exposure_global_par,
  validate_utilized_exposure_global_par,
  validate_committed_exposure_global_fair,
  validate_utilized_exposure_global_fair,
  validate_obligor_lei,
  validate_psr_lei,
  validate_country,
  validate_city,
  validate_accounts_payable_current,
  validate_accounts_payable_prior_year,
  validate_accounts_receivable_current,
  validate_accounts_receivable_prior_year,
  validate_capital_expenditures,
  validate_cash_marketable_securities,
  validate_collateral_market_value,
  validate_committed_exposure,
  validate_credit_facility_currency,
  validate_credit_facility_purpose,
  validate_credit_facility_type,
  validate_cumulative_chargeoffs,
  validate_current_assets_current,
  validate_current_assets_prior_year,
  validate_current_liabilities_current,
  validate_current_liabilities_prior_year,
  validate_current_maturities_long_term_debt,
  validate_cusip,
  validate_customer_id,
  validate_date_financials,
  validate_date_last_audit,
  validate_days_past_due,
  validate_depreciation_amortization,
  validate_disposition_flag,
  validate_disposition_schedule_shift,
  validate_entity_industry_code,
  validate_entity_internal_id,
  validate_entity_internal_risk_rating,
  validate_entity_name,
  validate_exposure_at_default,
  validate_fixed_assets,
  validate_guarantor_internal_id,
  validate_guarantor_internal_risk_rating,
  validate_guarantor_name,
  validate_guarantor_tin,
  validate_industry_code,
  validate_industry_code_type,
  validate_interest_expense,
  validate_interest_rate,
  validate_interest_rate_ceiling,
  validate_interest_rate_floor,
  validate_interest_rate_index,
  validate_interest_rate_spread,
  validate_interest_rate_variability,
  validate_internal_credit_facility_id,
  validate_internal_id,
  validate_internal_risk_rating,
  validate_inventory_current,
  validate_inventory_prior_year,
  validate_leveraged_loan_flag,
  validate_lien_position,
  validate_line_of_business,
  validate_line_reported_on_fry9c,
  validate_locom_flag,
  validate_long_term_debt,
  validate_loss_given_default,
  validate_maturity_date,
  validate_minority_interest,
  validate_net_income_current,
  validate_net_income_prior_year,
  validate_net_sales_current,
  validate_net_sales_prior_year,
  validate_non_accrual_date,
  validate_obligor_name,
  validate_operating_income,
  validate_original_credit_facility_id,
  validate_original_internal_id,
  validate_origination_date today,
  validate_other_credit_facility_purpose_desc,
  validate_other_credit_facility_type_desc,
  validate_participation_flag,
  validate_participation_interest,
  validate_prepayment_penalty_flag,
  validate_probability_of_default,
  validate_renewal_date,
  validate_retained_earnings,
  validate_security_type,
  validate_short_term_debt,
  validate_snc_internal_credit_id,
  validate_special_purpose_entity_flag,
  validate_stock_exchange,
  validate_syndicated_loan_flag,
  validate_tangible_assets,
  validate_tax_status,
  validate_ticker_symbol,
  validate_tin,
  validate_total_assets_current,
  validate_total_assets_prior_year,
  validate_total_liabilities,
  validate_utilized_exposure]

/-- Applying the full registry in registry order. -/
def applyAll (today : PyDate) (d : Dataset) : Except PyErr Dataset :=
  applyRules (CORPORATE_LOAN_RULES today) d

end CorporateLoanRules

section RiskScoring

/-- The raw magnitude cell the scorer compares: `row.get("Transaction_Amount", 0)`. -/
def amtVal (cols : List String) (r : Row) : Value :=
  rowGetD cols r "Transaction_Amount" (.vi 0)

/-- `v > 5000` as a boolean, defined on the non-string cells (the TypeError
branch of `pyGtInt` is excluded by hypothesis where this is used). -/
def gtB (v : Value) (n : Int) : Bool :=
  match v with
  | .vi m => decide (n < m)
  | .vb b => decide (n < (if b then (1 : Int) else 0))
  | _ => false

/-- `not row.get("Valid_Transaction", True) or not row.get("Valid_Currency", True)`. -/
def anyMonitoredFalse (cols : List String) (r : Row) : Bool :=
  !(truthy (rowGetD cols r "Valid_Transaction" (.vb true)))
    || !(truthy (rowGetD cols r "Valid_Currency" (.vb true)))

/-- The per-row scorer of risk_scoring.py: HIGH when the raw amount exceeds
5000, else MEDIUM when a monitored verdict is falsy, else LOW. -/
def scoreOne (cols : List String) (r : Row) : Except PyErr String :=
  match pyGtInt (amtVal cols r) 5000 with
  | .error e => .error e
  | .ok gt =>
    if gt then .ok "HIGH"
    else if anyMonitoredFalse cols r then .ok "MEDIUM"
    else .ok "LOW"

/-- `assign_risk_score`: score every row and write the Risk_Score column. -/
def assign_risk_score (d : Dataset) : Except PyErr Dataset :=
  match mapExcept (fun r => (scoreOne d.cols r).map (fun s => setF r "Risk_Score" (.vs s))) d.rows with
  | .error e => .error e
  | .ok rs => .ok ⟨addCol d.cols "Risk_Score", rs⟩

end RiskScoring

section Remediation

def msgCurrency : String := "Fix currency format to ISO 4217."
def msgTransaction : String := "Adjust Transaction_Amount to match Reported_Amount."
def msgDate : String := "Correct the Transaction_Date (can\x27t be in future)."
def msgAudit : String := "Manual audit required due to high amount."
def msgNone : String := "No action needed."

/-- `not row.get("Valid_Currency", True)` as a boolean. -/
def condCurrency (cols : List String) (r : Row) : Bool :=
  !(truthy (rowGetD cols r "Valid_Currency" (.vb true)))

def condTransaction (cols : List String) (r : Row) : Bool :=
  !(truthy (rowGetD cols r "Valid_Transaction" (.vb true)))

def condDate (cols : List String) (r : Row) : Bool :=
  !(truthy (rowGetD cols r "Valid_Transaction_Date" (.vb true)))

/-- `row.get("Risk_Score") == "HIGH"` (default None, which never equals a
string). -/
def condHigh (cols : List String) (r : Row) : Bool :=
  if cols.contains "Risk_Score" then pyEqStr (getF r "Risk_Score") "HIGH" else false

/-- The per-row remediation advisor of remediation.py: first-match-wins over
the fixed ordered condition list, with a fall-through message.  Total. -/
def getRemedyOne (cols : List String) (r : Row) : String :=
  if condCurrency cols r then msgCurrency
  else if condTransaction cols r then msgTransaction
  else if condDate cols r then msgDate
  else if condHigh cols r then msgAudit
  else msgNone

/-- `suggest_remediation`: annotate every row with its remediation message. -/
def suggest_remediation (d : Dataset) : Dataset :=
  ⟨addCol d.cols "Remediation",
    d.rows.map (fun r => setF r "Remediation" (.vs (getRemedyOne d.cols r)))⟩

end Remediation

section Pipeline

/-- A Python value flowing between pipeline stages: the dataframe, or the
string that custom_rules.apply_custom_rules actually returns. -/
inductive PipeVal where
  | table (d : Dataset)
  | text (s : String)
deriving DecidableEq

/-- custom_rules.apply_custom_rules: rebinds its argument to the empty string
and returns that, discarding the received dataframe entirely (it never
touches the CUSTOM_RULES list). -/
def apply_custom_rules (_d : Dataset) : PipeVal := .text ""

/-- The uploaded-file pipeline of genai_data_profiling.py after a CSV is
read: fold the corporate-loan registry over the frame, hand the result to
apply_custom_rules, then compute the risk column.  If the custom-rule step
ever returned a table, the next line would raise NameError (score_risk is
undefined in that module); on the string it actually returns, attribute
lookup of `.apply` raises AttributeError first. -/
def profile_pipeline (today : PyDate) (d : Dataset) : Except PyErr Dataset :=
  match applyAll today d with
  | .error e => .error e
  | .ok d1 =>
    match apply_custom_rules d1 with
    | .table _ => .error .nameError
    | .text _ => .error .attributeError

end Pipeline

section ConcreteData

/-- The process date used for concrete evaluations. -/
def today0 : PyDate := ⟨2026, 10, 12⟩

/-- Every source column the registry reads (the header a well-formed upload
must provide), in registry order of first access. -/
def allSrcCols : List String := [
  "Target_Hold", "ASC326_20", "PCD_Noncredit_Discount", "Current_Maturity_Date",
  "Committed_Exposure_Global_Par", "Utilized_Exposure_Global_Par",
  "Committed_Exposure_Global_Fair", "Utilized_Exposure_Global_Fair",
  "Obligor_LEI", "PSR_LEI", "Country", "City",
  "Accounts_Payable_Current", "Accounts_Payable_Prior_Year",
  "Accounts_Receivable_Current", "Accounts_Receivable_Prior_Year",
  "Capital_Expenditures", "Cash_Marketable_Securities", "Collateral_Market_Value",
  "Committed_Exposure", "Credit_Facility_Currency", "Credit_Facility_Purpose",
  "Credit_Facility_Type", "Cumulative_Chargeoffs", "Current_Assets_Current",
  "Current_Assets_Prior_Year", "Current_Liabilities_Current",
  "Current_Liabilities_Prior_Year", "Current_Maturities_Long_Term_Debt",
  "CUSIP", "Customer_ID", "Date_Financials", "Date_Last_Audit", "Days_Past_Due",
  "Depreciation_Amortization", "Disposition_Flag", "Disposition_Schedule_Shift",
  "Entity_Industry_Code", "Entity_Internal_ID", "Entity_Internal_Risk_Rating",
  "Entity_Name", "EAD", "Fixed_Assets", "Guarantor_Internal_ID",
  "Guarantor_Internal_Risk_Rating", "Guarantor_Name", "Guarantor_TIN",
  "Industry_Code", "Industry_Code_Type", "Interest_Expense", "Interest_Rate",
  "Interest_Rate_Ceiling", "Interest_Rate_Floor", "Interest_Rate_Index",
  "Interest_Rate_Spread", "Interest_Rate_Variability",
  "Internal_Credit_Facility_ID", "Internal_ID", "Internal_Risk_Rating",
  "Inventory_Current", "Inventory_Prior_Year", "Leveraged_Loan_Flag",
  "Lien_Position", "Line_of_Business", "Line_Reported_on_FR_Y9C", "LOCOM",
  "Long_Term_Debt", "LGD", "Maturity_Date", "Minority_Interest",
  "Net_Income_Current", "Net_Income_Prior_Year", "Net_Sales_Current",
  "Net_Sales_Prior_Year", "Non_Accrual_Date", "Obligor_Name",
  "Operating_Income", "Original_Credit_Facility_ID", "Original_Internal_ID",
  "Origination_Date", "Other_Credit_Facility_Purpose_Description",
  "Other_Credit_Facility_Type_Description", "Participation_Flag",
  "Participation_Interest", "Prepayment_Penalty_Flag", "Probability_of_Default",
  "Renewal_Date", "Retained_Earnings", "Security_Type", "Short_Term_Debt",
  "SNC_Internal_Credit_ID", "Special_Purpose_Entity_Flag", "Stock_Exchange",
  "Syndicated_Loan_Flag", "Tangible_Assets", "Tax_Status", "Ticker_Symbol",
  "TIN", "Total_Assets_Current", "Total_Assets_Prior_Year", "Total_Liabilities",
  "Utilized_Exposure"]

/-- The verdict columns the registry writes that are not themselves source
columns, in the order the registry appends them. -/
def renamedOutCols : List String :=
  ["AR_Current", "AR_Prior_Year", "Other_Credit_Facility_Purpose_Desc",
   "Other_Credit_Facility_Desc", "PD"]

/-- A zero-row upload carrying exactly the expected header. -/
def dsEmpty : Dataset := ⟨allSrcCols, []⟩

/-- A one-row upload with the full expected header whose
Credit_Facility_Type is the raw sentinel code "0" and whose free-text
description is empty; every other cell is the missing-cell NaN. -/
def dsSentinelRow : Dataset :=
  ⟨allSrcCols,
   [[("Credit_Facility_Type", Value.vs "0"),
     ("Other_Credit_Facility_Type_Description", Value.vs "")]]⟩

/-- The two-column frame exercising the description rule in isolation on the
same raw cells. -/
def dsSentinelRowRaw : Dataset :=
  ⟨["Credit_Facility_Type", "Other_Credit_Facility_Type_Description"],
   [[("Credit_Facility_Type", Value.vs "0"),
     ("Other_Credit_Facility_Type_Description", Value.vs "")]]⟩

end ConcreteData

section ClaimSupport

/-- The verdict list a single rule writes on a frame (its output column, row
by row). -/
def ruleVerdicts (R : RuleSpec) (d : Dataset) : Except PyErr (List Value) :=
  (applyRule R d).map (fun d' => d'.rows.map (fun r => getF r (outField R)))

/-- A one-row one-column frame. -/
def oneCell (col : String) (v : Value) : Dataset := ⟨[col], [[(col, v)]]⟩

/-- The verdict columns of the registry, in registry order. -/
def registryOutFields (today : PyDate) : List String :=
  (CORPORATE_LOAN_RULES today).map outField

/-- The validity matrix of an annotated frame: every verdict column at every
row, in order. -/
def verdictMatrix (today : PyDate) (d : Dataset) : List (List Value) :=
  d.rows.map (fun r => (registryOutFields today).map (fun k => getF r k))

/-- A two-column frame exercising the country rule and the renaming
accounts-receivable rule. -/
def dsFrame9 : Dataset :=
  ⟨["Country", "Accounts_Receivable_Current"],
   [[("Country", Value.vs "US"), ("Accounts_Receivable_Current", Value.vs "12")]]⟩

/-- `dsFrame9` after the country rule: the Country cell is replaced by its
verdict, everything else untouched. -/
def dsFrame9' : Dataset :=
  ⟨["Country", "Accounts_Receivable_Current"],
   [[("Country", Value.vb true), ("Accounts_Receivable_Current", Value.vs "12")]]⟩

end ClaimSupport

section HelperLemmas

theorem getF_setF_ne (r : Row) (k k' : String) (v : Value) (h : k' ≠ k) :
    getF (setF r k v) k' = getF r k' := by
  induction r with
  | nil => simp [setF, getF, Ne.symm h]
  | cons a t ih =>
    obtain ⟨ka, va⟩ := a
    by_cases hk : ka = k
    · subst hk
      simp [setF, getF, Ne.symm h]
    · simp only [setF, if_neg hk, getF]
      by_cases hk' : ka = k'
      · simp [hk']
      · simp [hk', ih]

theorem getF_setF_self (r : Row) (k : String) (v : Value) :
    getF (setF r k v) k = v := by
  induction r with
  | nil => simp [setF, getF]
  | cons a t ih =>
    obtain ⟨ka, va⟩ := a
    by_cases hk : ka = k
    · subst hk; simp [setF, getF]
    · simp [setF, hk, getF, ih]

theorem mapExcept_ok_length {α β : Type} (f : α → Except PyErr β) (l : List α)
    (l' : List β) (h : mapExcept f l = .ok l') : l'.length = l.length := by
  induction l generalizing l' with
  | nil =>
    simp [mapExcept] at h
    simp [← h]
  | cons a t ih =>
    unfold mapExcept at h
    cases hfa : f a with
    | error e => rw [hfa] at h; simp at h
    | ok b =>
      rw [hfa] at h
      cases hmt : mapExcept f t with
      | error e => rw [hmt] at h; simp at h
      | ok bs =>
        rw [hmt] at h
        simp at h
        subst h
        simp [ih bs hmt]

theorem mapExcept_ok_get {α β : Type} (f : α → Except PyErr β) (l : List α)
    (l' : List β) (h : mapExcept f l = .ok l') (i : Nat) :
    ∀ a, l.get? i = some a → ∃ b, l'.get? i = some b ∧ f a = .ok b := by
  induction l generalizing l' i with
  | nil => intro a ha; simp at ha
  | cons x t ih =>
    unfold mapExcept at h
    cases hfa : f x with
    | error e => rw [hfa] at h; simp at h
    | ok b =>
      rw [hfa] at h
      cases hmt : mapExcept f t with
      | error e => rw [hmt] at h; simp at h
      | ok bs =>
        rw [hmt] at h
        simp at h
        subst h
        intro a ha
        cases i with
        | zero =>
          simp at ha
          subst ha
          exact ⟨b, by simp, hfa⟩
        | succ j =>
          simp only [List.get?] at ha ⊢
          exact ih bs hmt j a ha

theorem mapExcept_ok_of_forall {α β : Type} (f : α → Except PyErr β) (l : List α)
    (h : ∀ a ∈ l, (f a).isOk = true) : (mapExcept f l).isOk = true := by
  induction l with
  | nil => simp [mapExcept, Except.isOk, Except.toBool]
  | cons a t ih =>
    unfold mapExcept
    cases hfa : f a with
    | error e =>
      have := h a (by simp)
      rw [hfa] at this
      simp [Except.isOk, Except.toBool] at this
    | ok b =>
      cases hmt : mapExcept f t with
      | error e =>
        have := ih (fun x hx => h x (by simp [hx]))
        rw [hmt] at this
        simp [Except.isOk, Except.toBool] at this
      | ok bs => simp [Except.isOk, Except.toBool]

theorem applyRule_length (R : RuleSpec) (d d' : Dataset)
    (h : applyRule R d = .ok d') : d'.rows.length = d.rows.length := by
  cases R with
  | col src out p =>
    simp only [applyRule] at h
    split at h
    · cases h; simp
    · exact Except.noConfusion h
  | rowr out p =>
    simp only [applyRule] at h
    cases hm : mapExcept (fun r => (p (rowGet d.cols r)).map (fun b => setF r out (.vb b))) d.rows with
    | error e => rw [hm] at h; exact Except.noConfusion h
    | ok rs =>
      rw [hm] at h
      cases h
      exact mapExcept_ok_length _ _ _ hm

/-- Applying one rule leaves every field other than its output field
unchanged, row by row in order. -/
theorem applyRule_frame (R : RuleSpec) (d d' : Dataset)
    (h : applyRule R d = .ok d') (i : Nat) (k : String) (hk : k ≠ outField R) :
    (d'.rows.get? i).map (fun r => getF r k) = (d.rows.get? i).map (fun r => getF r k) := by
  cases R with
  | col src out p =>
    simp only [applyRule] at h
    split at h
    · cases h
      simp only [List.get?_map]
      cases d.rows.get? i with
      | none => simp
      | some r =>
        simp [getF_setF_ne r out k _ (by simpa [outField] using hk)]
    · exact Except.noConfusion h
  | rowr out p =>
    simp only [applyRule] at h
    cases hm : mapExcept (fun r => (p (rowGet d.cols r)).map (fun b => setF r out (.vb b))) d.rows with
    | error e => rw [hm] at h; exact Except.noConfusion h
    | ok rs =>
      rw [hm] at h
      cases h
      cases hd : d.rows.get? i with
      | none =>
        have hlen := mapExcept_ok_length _ _ _ hm
        have hge : d.rows.length ≤ i := by
          by_contra hlt
          push_neg at hlt
          rw [List.get?_eq_get hlt] at hd
          simp at hd
        have hnone : rs.get? i = none := by
          apply List.get?_eq_none.mpr
          omega
        rw [hnone]
      | some r =>
        obtain ⟨b, hb, hfb⟩ := mapExcept_ok_get _ _ _ hm i r hd
        cases hp : p (rowGet d.cols r) with
        | error e => rw [hp] at hfb; simp [Except.map] at hfb
        | ok bv =>
          rw [hp] at hfb
          simp [Except.map] at hfb
          rw [hb, ← hfb]
          simp [getF_setF_ne r out k _ (by simpa [outField] using hk)]

theorem applyRules_length (L : List RuleSpec) (d d' : Dataset)
    (h : applyRules L d = .ok d') : d'.rows.length = d.rows.length := by
  induction L generalizing d with
  | nil => simp [applyRules] at h; simp [← h]
  | cons R t ih =>
    unfold applyRules at h
    cases hr : applyRule R d with
    | error e => rw [hr] at h; exact Except.noConfusion h
    | ok d1 =>
      rw [hr] at h
      exact (ih d1 h).trans (applyRule_length R d d1 hr)

/-- Applying a list of rules leaves every field that is no rule's output
field unchanged, row by row in order. -/
theorem applyRules_frame (L : List RuleSpec) (d d' : Dataset)
    (h : applyRules L d = .ok d') (i : Nat) (k : String)
    (hk : ∀ R ∈ L, k ≠ outField R) :
    (d'.rows.get? i).map (fun r => getF r k) = (d.rows.get? i).map (fun r => getF r k) := by
  induction L generalizing d with
  | nil => simp [applyRules] at h; simp [← h]
  | cons R t ih =>
    unfold applyRules at h
    cases hr : applyRule R d with
    | error e => rw [hr] at h; exact Except.noConfusion h
    | ok d1 =>
      rw [hr] at h
      exact (ih d1 h (fun S hS => hk S (by simp [hS]))).trans
        (applyRule_frame R d d1 hr i k (hk R (by simp)))

theorem applyRule_rowr_isOk (out : String)
    (p : (String → Except PyErr Value) → Except PyErr Bool) (d : Dataset)
    (h : ∀ r ∈ d.rows, (p (rowGet d.cols r)).isOk = true) :
    (applyRule (.rowr out p) d).isOk = true := by
  simp only [applyRule]
  have hrow : ∀ r ∈ d.rows,
      ((p (rowGet d.cols r)).map (fun b => setF r out (.vb b))).isOk = true := by
    intro r hr
    cases hp : p (rowGet d.cols r) with
    | error e =>
      have := h r hr
      rw [hp] at this
      simp [Except.isOk, Except.toBool] at this
    | ok b => simp [hp, Except.map, Except.isOk, Except.toBool]
  have hmo := mapExcept_ok_of_forall
    (fun r => (p (rowGet d.cols r)).map (fun b => setF r out (.vb b))) d.rows hrow
  cases hm : mapExcept (fun r => (p (rowGet d.cols r)).map (fun b => setF r out (.vb b))) d.rows with
  | error e => rw [hm] at hmo; simp [Except.isOk, Except.toBool] at hmo
  | ok rs => simp [Except.isOk, Except.toBool]

theorem condDescOk_isOk (cols : List String) (r : Row) (codeCol descCol : String)
    (hc : codeCol ∈ cols)
    (hrow : pyNeStr (getF r codeCol) "0" = true ∨
      (descCol ∈ cols ∧ ∃ s, getF r descCol = .vs s)) :
    (condDescOk codeCol descCol (rowGet cols r)).isOk = true := by
  have hg : rowGet cols r codeCol = .ok (getF r codeCol) := by simp [rowGet, hc]
  unfold condDescOk
  rw [hg]
  rcases hrow with hne | ⟨hdc, s, hs⟩
  · simp [hne, Except.isOk, Except.toBool]
  · have hgd : rowGet cols r descCol = .ok (getF r descCol) := by simp [rowGet, hdc]
    cases hne : pyNeStr (getF r codeCol) "0"
    · simp [hne, hgd, hs, Except.isOk, Except.toBool]
    · simp [hne, Except.isOk, Except.toBool]

end HelperLemmas

section ClaimC1

/-- C1 (corrected): the claim as stated is false — applying a registered
rule to a frame whose source column is absent raises KeyError instead of
writing false verdicts: the Customer_ID rule on a frame without that column
errors. -/
theorem claim_C1_counterexample :
    applyRule validate_customer_id ⟨["A"], [[("A", Value.vs "x")]]⟩ = .error .keyError := rfl

/-- C1 (amended): a rule is total only on frames that contain its source
column(s).  There, the Customer_ID rule writes, without raising, exactly one
boolean verdict per row, equal to the identifier-pattern match of the
stringified cell — so a wrong-typed cell is stringified rather than mapped
to false: a NaN cell (stringified "nan") and an int cell both get verdict
true — and no bad cell aborts the remaining rows.  The conditional
description rule raises AttributeError on a non-string description cell when
the governing code is the string "0", and never raises when every row has a
non-"0" code or a string description. -/
theorem claim_C1_amended :
    (∀ d : Dataset, d.cols.contains "Customer_ID" = true →
      ∃ d', applyRule validate_customer_id d = .ok d'
        ∧ d'.rows.length = d.rows.length
        ∧ ∀ i r, d.rows.get? i = some r →
            (d'.rows.get? i).map (fun r2 => getF r2 "Customer_ID")
              = some (.vb (pyMatchDollar idCore (pyStr (getF r "Customer_ID")))))
    ∧ (∀ d : Dataset, d.cols.contains "Credit_Facility_Type" = true →
        (∀ r ∈ d.rows, pyNeStr (getF r "Credit_Facility_Type") "0" = true ∨
          (d.cols.contains "Other_Credit_Facility_Type_Description" = true ∧
            ∃ s, getF r "Other_Credit_Facility_Type_Description" = .vs s)) →
        (applyRule validate_other_credit_facility_type_desc d).isOk = true)
    ∧ ruleVerdicts validate_customer_id (oneCell "Customer_ID" Value.vna) = .ok [.vb true]
    ∧ ruleVerdicts validate_customer_id (oneCell "Customer_ID" (Value.vi 123)) = .ok [.vb true]
    ∧ applyRule validate_other_credit_facility_type_desc
        ⟨["Credit_Facility_Type", "Other_Credit_Facility_Type_Description"],
         [[("Credit_Facility_Type", Value.vs "0"),
           ("Other_Credit_Facility_Type_Description", Value.vna)]]⟩
        = .error .attributeError := by
  refine ⟨?_, ?_, rfl, rfl, rfl⟩
  · intro d h
    have h2 : "Customer_ID" ∈ d.cols := by simpa using h
    refine ⟨⟨addCol d.cols "Customer_ID",
      d.rows.map (fun r => setF r "Customer_ID"
        (.vb (pyMatchDollar idCore (pyStr (getF r "Customer_ID")))))⟩, ?_, by simp, ?_⟩
    · simp [applyRule, validate_customer_id, h2]
    · intro i r hir
      rw [List.get?_map, hir]
      simp [getF_setF_self]
  · intro d hc hrows
    apply applyRule_rowr_isOk
    intro r hr
    apply condDescOk_isOk d.cols r _ _ (by simpa using hc)
    rcases hrows r hr with hne | ⟨hdc, s, hs⟩
    · exact Or.inl hne
    · exact Or.inr ⟨by simpa using hdc, s, hs⟩

/-- Witness for the amended C1 at concrete frames: both cited rules run
without raising once their columns are present (and, for the description
rule, the governing codes are non-"0"). -/
theorem claim_C1_witness :
    (applyRule validate_customer_id
      ⟨["Customer_ID"], [[("Customer_ID", Value.vs "abc")]]⟩).isOk = true
    ∧ (applyRule validate_other_credit_facility_type_desc
      ⟨["Credit_Facility_Type", "Other_Credit_Facility_Type_Description"],
       [[("Credit_Facility_Type", Value.vs "5")]]⟩).isOk = true := by
  constructor
  · obtain ⟨d', hd', -, -⟩ := claim_C1_amended.1
      ⟨["Customer_ID"], [[("Customer_ID", Value.vs "abc")]]⟩ rfl
    rw [hd']
    rfl
  · exact claim_C1_amended.2.1 _ rfl
      (by
        intro r hr
        rw [List.mem_singleton] at hr
        subst hr
        left
        rfl)

end ClaimC1

section ClaimC2

set_option maxRecDepth 8000 in
/-- C2 (code bug): on a full-header upload whose raw Credit_Facility_Type is
the sentinel code "0" with an empty description, the full registry writes a
`true` Other_Credit_Facility_Desc verdict — because the registry validated
Credit_Facility_Type first, overwriting the raw code with a boolean, so the
description rule's `code != "0"` test is vacuously true.  The same rule
applied to the same raw cells in isolation gives the intended `false`. -/
theorem claim_C2_bug :
    (applyAll today0 dsSentinelRow).map
        (fun d => d.rows.map (fun r => getF r "Other_Credit_Facility_Desc")) = .ok [.vb true]
    ∧ (applyRule validate_other_credit_facility_type_desc dsSentinelRowRaw).map
        (fun d => d.rows.map (fun r => getF r "Other_Credit_Facility_Desc")) = .ok [.vb false]
    ∧ getF (dsSentinelRow.rows.getD 0 []) "Credit_Facility_Type" = .vs "0"
    ∧ getF (dsSentinelRow.rows.getD 0 []) "Other_Credit_Facility_Type_Description" = .vs "" :=
  ⟨rfl, rfl, rfl, rfl⟩

end ClaimC2

section ClaimC3

/-- C3 (corrected): the claim as stated is false — the
Special_Purpose_Entity_Flag rule compares the raw cell against the integer
set, so the string "1", whose stringified form is in the allowed code set,
still gets a false verdict. -/
theorem claim_C3_counterexample :
    ruleVerdicts validate_special_purpose_entity_flag
        (oneCell "Special_Purpose_Entity_Flag" (Value.vs "1")) = .ok [.vb false]
    ∧ ["1", "2"].contains (pyStr (Value.vs "1")) = true :=
  ⟨rfl, rfl⟩

/-- C3 (amended): enumerated-code rules that stringify (Credit_Facility_Type,
Tax_Status) return true exactly on membership of the stringified cell in the
string code set; the flag rules using a raw `isin` over integer codes
(Special_Purpose_Entity_Flag) return true exactly on integer membership
(with Python booleans counting as 0 or 1), rejecting every string cell. -/
theorem claim_C3_amended :
    (∀ v, ruleVerdicts validate_credit_facility_type (oneCell "Credit_Facility_Type" v)
      = .ok [.vb (cftAllowed.contains (pyStr v))])
    ∧ (∀ v, ruleVerdicts validate_tax_status (oneCell "Tax_Status" v)
      = .ok [.vb (["1", "2"].contains (pyStr v))])
    ∧ (∀ v, ruleVerdicts validate_special_purpose_entity_flag
        (oneCell "Special_Purpose_Entity_Flag" v) = .ok [.vb (isinInt [1, 2] v)])
    ∧ ruleVerdicts validate_special_purpose_entity_flag
        (oneCell "Special_Purpose_Entity_Flag" (Value.vi 1)) = .ok [.vb true] :=
  ⟨fun _ => rfl, fun _ => rfl, fun _ => rfl, rfl⟩

end ClaimC3

section ClaimC4

/-- C4 (corrected): the claim as stated is false — the renewal-date rule
rejects a well-formed year-month-day date, because its pattern is
two-digit dash two-digit dash four-digit. -/
theorem claim_C4_counterexample :
    ruleVerdicts validate_renewal_date (oneCell "Renewal_Date" (Value.vs "2024-01-15"))
      = .ok [.vb false]
    ∧ (ymdParse "2024-01-15").isSome = true :=
  ⟨rfl, rfl⟩

/-- C4 (amended): maturity and non-accrual dates accept a year-month-day
parse or their sentinel; the renewal date accepts only the stripped sentinel
"9999-12-31" or the day-month-year digit pattern; the origination date
requires a parse that is not after today; and each documented sentinel
literal always yields true. -/
theorem claim_C4_amended :
    (∀ v, ruleVerdicts validate_maturity_date (oneCell "Maturity_Date" v)
      = .ok [.vb ((ymdParse (pyStr v)).isSome || pyStr v == "9999-01-01")])
    ∧ (∀ v, ruleVerdicts validate_non_accrual_date (oneCell "Non_Accrual_Date" v)
      = .ok [.vb ((ymdParse (pyStr v)).isSome || pyStr v == "9999-12-31")])
    ∧ (∀ v, ruleVerdicts validate_renewal_date (oneCell "Renewal_Date" v)
      = .ok [.vb (pyStrip (pyStr v) == "9999-12-31" || pyMatchDollar ddmmyyyyCore (pyStr v))])
    ∧ (∀ t v, ruleVerdicts (validate_origination_date t) (oneCell "Origination_Date" v)
      = .ok [.vb (match ymdParse (pyStr v) with | some dt => dateLe dt t | none => false)])
    ∧ ruleVerdicts validate_renewal_date (oneCell "Renewal_Date" (Value.vs "9999-12-31"))
      = .ok [.vb true]
    ∧ ruleVerdicts validate_non_accrual_date (oneCell "Non_Accrual_Date" (Value.vs "9999-12-31"))
      = .ok [.vb true]
    ∧ ruleVerdicts validate_maturity_date (oneCell "Maturity_Date" (Value.vs "9999-01-01"))
      = .ok [.vb true]
    ∧ ruleVerdicts validate_current_maturity_date
        (oneCell "Current_Maturity_Date" (Value.vs "9999-01-01")) = .ok [.vb true] :=
  ⟨fun _ => rfl, fun _ => rfl, fun _ => rfl, fun _ _ => rfl, rfl, rfl, rfl, rfl⟩

end ClaimC4

section ClaimC5

/-- C5 (confirmed): two independent passes of the full registry over the
same raw frame (same process date) produce identical verdict matrices — the
embedded registry is a pure function of the frame, with no hidden state. -/
theorem claim_C5 (today : PyDate) (d : Dataset) (r1 r2 : Except PyErr Dataset)
    (h1 : applyAll today d = r1) (h2 : applyAll today d = r2) :
    r1.map (verdictMatrix today) = r2.map (verdictMatrix today) := by
  rw [← h1, ← h2]

/-- Witness for C5: both passes over the empty-but-fully-headed upload
evaluate to the same annotated frame. -/
theorem claim_C5_witness :
    (Except.ok (Dataset.mk (allSrcCols ++ renamedOutCols) []) : Except PyErr Dataset).map
        (verdictMatrix today0)
      = (Except.ok (Dataset.mk (allSrcCols ++ renamedOutCols) []) : Except PyErr Dataset).map
        (verdictMatrix today0) :=
  claim_C5 today0 dsEmpty _ _ rfl rfl

end ClaimC5

section ClaimC6

/-- C6 (confirmed): for every row whose raw Transaction_Amount cell is not a
string (ints, bools, NaN or an absent field, which defaults to 0), the risk
scorer returns HIGH exactly when the amount exceeds 5000 — regardless of any
verdict — else MEDIUM exactly when a monitored verdict is falsy, else LOW. -/
theorem claim_C6 (cols : List String) (r : Row) (h : isStrV (amtVal cols r) = false) :
    (scoreOne cols r = .ok "HIGH" ↔ gtB (amtVal cols r) 5000 = true)
    ∧ (scoreOne cols r = .ok "MEDIUM" ↔
        (gtB (amtVal cols r) 5000 = false ∧ anyMonitoredFalse cols r = true))
    ∧ (scoreOne cols r = .ok "LOW" ↔
        (gtB (amtVal cols r) 5000 = false ∧ anyMonitoredFalse cols r = false)) := by
  have hgt : pyGtInt (amtVal cols r) 5000 = .ok (gtB (amtVal cols r) 5000) := by
    cases hv : amtVal cols r with
    | vs s => rw [hv] at h; simp [isStrV] at h
    | vi n => simp [pyGtInt, gtB]
    | vb b => simp [pyGtInt, gtB]
    | vna => simp [pyGtInt, gtB]
  refine ⟨?_, ?_, ?_⟩ <;>
    cases hgb : gtB (amtVal cols r) 5000 <;>
      cases ham : anyMonitoredFalse cols r <;>
        simp [scoreOne, hgt, hgb, ham]

/-- Witness for C6 at the spec's example row: amount 6000 scores HIGH. -/
theorem claim_C6_witness :
    isStrV (amtVal ["Transaction_Amount"] [("Transaction_Amount", Value.vi 6000)]) = false
    ∧ (scoreOne ["Transaction_Amount"] [("Transaction_Amount", Value.vi 6000)] = .ok "HIGH" ↔
        gtB (amtVal ["Transaction_Amount"] [("Transaction_Amount", Value.vi 6000)]) 5000 = true) :=
  ⟨rfl, (claim_C6 ["Transaction_Amount"] [("Transaction_Amount", Value.vi 6000)] rfl).1⟩

end ClaimC6

section ClaimC7

/-- C7 (confirmed): the remediation advisor is first-match-wins over the
fixed ordered condition list — each message is returned exactly when its
condition is the first to hold, and the fall-through message exactly when no
condition holds. -/
theorem claim_C7 (cols : List String) (r : Row) :
    (getRemedyOne cols r = msgCurrency ↔ condCurrency cols r = true)
    ∧ (getRemedyOne cols r = msgTransaction ↔
        (condCurrency cols r = false ∧ condTransaction cols r = true))
    ∧ (getRemedyOne cols r = msgDate ↔
        (condCurrency cols r = false ∧ condTransaction cols r = false ∧ condDate cols r = true))
    ∧ (getRemedyOne cols r = msgAudit ↔
        (condCurrency cols r = false ∧ condTransaction cols r = false
          ∧ condDate cols r = false ∧ condHigh cols r = true))
    ∧ (getRemedyOne cols r = msgNone ↔
        (condCurrency cols r = false ∧ condTransaction cols r = false
          ∧ condDate cols r = false ∧ condHigh cols r = false)) := by
  cases h1 : condCurrency cols r <;> cases h2 : condTransaction cols r <;>
    cases h3 : condDate cols r <;> cases h4 : condHigh cols r <;>
      simp [getRemedyOne, h1, h2, h3, h4,
        msgCurrency, msgTransaction, msgDate, msgAudit, msgNone]

end ClaimC7

section ClaimC8

/-- C8 (code bug): the custom-rule hook discards the validated table and
returns the empty string, so the uploaded-file pipeline can never produce
the augmented output table — it raises on every upload. -/
theorem claim_C8_bug :
    (∀ d : Dataset, apply_custom_rules d = PipeVal.text "")
    ∧ (∀ (today : PyDate) (d : Dataset), (profile_pipeline today d).isOk = false) := by
  refine ⟨fun d => rfl, fun today d => ?_⟩
  unfold profile_pipeline
  cases applyAll today d <;> simp [apply_custom_rules, Except.isOk, Except.toBool]

end ClaimC8

section ClaimC9

theorem applyRule_col_writes (src out : String) (p : Value → Bool) (d d' : Dataset)
    (h : applyRule (.col src out p) d = .ok d') :
    ∀ r ∈ d'.rows, ∃ b, getF r out = .vb b := by
  simp only [applyRule] at h
  split at h
  · cases h
    intro r hr
    rw [List.mem_map] at hr
    obtain ⟨r0, _, rfl⟩ := hr
    exact ⟨_, getF_setF_self r0 out _⟩
  · exact Except.noConfusion h

/-- C9 (confirmed): applying a single rule writes exactly its output column
(a boolean verdict on every row) and leaves the cell of every other column
unchanged at every row — shown for the country rule (output equals source)
and the accounts-receivable rule (output AR_Current differs from its source
column, which therefore stays raw). -/
theorem claim_C9 :
    (∀ d d' : Dataset, applyRule validate_country d = .ok d' →
      (∀ i k, k ≠ "Country" →
        (d'.rows.get? i).map (fun r => getF r k) = (d.rows.get? i).map (fun r => getF r k))
      ∧ ∀ r ∈ d'.rows, ∃ b, getF r "Country" = .vb b)
    ∧ (∀ d d' : Dataset, applyRule validate_accounts_receivable_current d = .ok d' →
      (∀ i k, k ≠ "AR_Current" →
        (d'.rows.get? i).map (fun r => getF r k) = (d.rows.get? i).map (fun r => getF r k))
      ∧ ∀ r ∈ d'.rows, ∃ b, getF r "AR_Current" = .vb b) := by
  constructor
  · intro d d' h
    exact ⟨fun i k hk => applyRule_frame _ d d' h i k hk,
      applyRule_col_writes _ _ _ d d' h⟩
  · intro d d' h
    exact ⟨fun i k hk => applyRule_frame _ d d' h i k hk,
      applyRule_col_writes _ _ _ d d' h⟩

/-- Witness for C9: on a concrete two-column frame, validating Country
leaves the raw Accounts_Receivable_Current cell untouched. -/
theorem claim_C9_witness :
    (dsFrame9'.rows.get? 0).map (fun r => getF r "Accounts_Receivable_Current")
      = (dsFrame9.rows.get? 0).map (fun r => getF r "Accounts_Receivable_Current") :=
  (claim_C9.1 dsFrame9 dsFrame9' rfl).1 0 "Accounts_Receivable_Current" (by decide)

end ClaimC9

section ClaimC10

/-- C10 (confirmed): a successful full-registry pass preserves the row count
and the positional order of rows (every column no rule writes is unchanged
row by row), a zero-row input yields a zero-row output, and the zero-row
fully-headed upload concretely yields the zero-row frame that carries every
verdict column the registry writes. -/
theorem claim_C10 :
    (∀ (today : PyDate) (d d' : Dataset), applyAll today d = .ok d' →
      d'.rows.length = d.rows.length
      ∧ (d.rows = [] → d'.rows = [])
      ∧ ∀ i k, (∀ R ∈ CORPORATE_LOAN_RULES today, k ≠ outField R) →
          (d'.rows.get? i).map (fun r => getF r k) = (d.rows.get? i).map (fun r => getF r k))
    ∧ applyAll today0 dsEmpty = .ok ⟨allSrcCols ++ renamedOutCols, []⟩
    ∧ (registryOutFields today0).all (fun k => (allSrcCols ++ renamedOutCols).contains k) = true := by
  refine ⟨?_, rfl, rfl⟩
  intro today d d' h
  refine ⟨applyRules_length _ _ _ h, ?_, fun i k hk => applyRules_frame _ _ _ h i k hk⟩
  intro hempty
  have hlen := applyRules_length _ _ _ h
  have hzero : d'.rows.length = 0 := by rw [hlen, hempty]; rfl
  exact List.length_eq_zero.mp hzero

/-- Witness for C10: the zero-row fully-headed upload passes the registry
and keeps zero rows. -/
theorem claim_C10_witness :
    (Dataset.mk (allSrcCols ++ renamedOutCols) []).rows.length = dsEmpty.rows.length
    ∧ (Dataset.mk (allSrcCols ++ renamedOutCols) []).rows = ([] : List Row) :=
  ⟨(claim_C10.1 today0 dsEmpty _ claim_C10.2.1).1,
   (claim_C10.1 today0 dsEmpty _ claim_C10.2.1).2.1 rfl⟩

end ClaimC10
